import Mathlib

/-!
Verification development for the True-Pros backend (Telegram callback
service).  The definitions below are a shallow embedding of the code in
`src/services/realtimeService.js` and `src/services/telegramBot.js`
(each file contains two concatenated historical revisions; we embed the
second, current revision of each, which is the one the specification
describes).  Times are modelled as integer milliseconds, the mutable
module-level variables as explicit state records, and the network /
Telegram side effects as an event trace.
-/

namespace TruePros

/-- JavaScript `s.includes(sub)` : substring containment, implemented by
scanning the character list. -/
def charsIncludes (sub : List Char) : List Char → Bool
  | [] => sub.isPrefixOf []
  | c :: t => sub.isPrefixOf (c :: t) || charsIncludes sub t

/-- JavaScript `s.includes(sub)` on strings. -/
def strIncludes (s sub : String) : Bool :=
  charsIncludes sub.data s.data

namespace Realtime

/-- Module-level mutable state of `src/services/realtimeService.js`
(second revision, lines 179-183): `realtimeSubscription`,
`reconnectAttempts`, `isReconnecting`, `isDatabaseError`.  The
subscription handle is abstracted to a numeric identifier. -/
structure RtState where
  realtimeSubscription : Option Nat
  reconnectAttempts : Nat
  isReconnecting : Bool
  isDatabaseError : Bool
deriving Repr, DecidableEq

/-- `const maxReconnectAttempts = 5` (line 183). -/
def maxReconnectAttempts : Nat := 5

/-- Observable side effects of the realtime error path.  The second
revision only ever logs to the console; it imports no operator-channel
notifier (`sendErrorNotification` is absent from its import list), so
`notifyOperator` is never emitted — having it in the vocabulary lets us
state that fact. -/
inductive REv where
  | notifyOperator (tag : String)
  | consoleError (tag : String)
deriving Repr, DecidableEq

/-- `scheduleReconnection(customDelay = null)` (lines 315-344).  Returns
the updated state together with the delay of the `setTimeout` it
scheduled, or `none` when it refused (reentrancy guard, or retry budget
exhausted).  `customDelay || Math.min(1000 * Math.pow(2, reconnectAttempts),
30000)` is modelled by `Option.getD` (all call sites pass `null`, `30000`
or `60000`, never `0`). -/
def scheduleReconnection (customDelay : Option Nat) (st : RtState) :
    RtState × Option Nat :=
  if st.isReconnecting then
    (st, none)
  else if maxReconnectAttempts ≤ st.reconnectAttempts then
    ({ st with isReconnecting := false }, none)
  else
    let attempts := st.reconnectAttempts + 1
    let delay := customDelay.getD (min (1000 * 2 ^ attempts) 30000)
    ({ st with isReconnecting := true, reconnectAttempts := attempts },
     some delay)

/-- `handleRealtimeError(error)` (lines 289-312): classifies the error
message text and schedules a reconnection.  Returns the new state, the
scheduled delay (if any) and the emitted side effects. -/
def handleRealtimeError (errorMessage : String) (st : RtState) :
    RtState × Option Nat × List REv :=
  if strIncludes errorMessage "unable to connect to the project database" then
    let st1 := { st with isDatabaseError := true }
    if !st1.isReconnecting then
      let (st2, d) := scheduleReconnection (some 30000) st1
      (st2, d, [REv.consoleError "database connection error - critical issue"])
    else
      (st1, none, [REv.consoleError "database connection error - critical issue"])
  else if strIncludes errorMessage "permission" ||
          strIncludes errorMessage "unauthorized" then
    if !st.isReconnecting then
      let (st2, d) := scheduleReconnection (some 60000) st
      (st2, d, [REv.consoleError "permission error - check service role key"])
    else
      (st, none, [REv.consoleError "permission error - check service role key"])
  else
    if !st.isReconnecting then
      let (st2, d) := scheduleReconnection none st
      (st2, d, [REv.consoleError "temporary realtime error - will retry"])
    else
      (st, none, [REv.consoleError "temporary realtime error - will retry"])

/-- The status values delivered to the `.subscribe` callback
(lines 253-274). -/
inductive SubStatus where
  | subscribed
  | channelError (errMessage : String)
  | timedOut
  | closed
deriving Repr, DecidableEq

/-- One invocation of the `.subscribe((status, err) => ...)` callback
(lines 253-274). -/
def subscribeStatusStep (e : SubStatus) (st : RtState) :
    RtState × Option Nat × List REv :=
  match e with
  | .subscribed =>
      ({ st with reconnectAttempts := 0, isReconnecting := false,
                 isDatabaseError := false }, none, [])
  | .channelError msg => handleRealtimeError msg st
  | .timedOut =>
      let (st1, d) := scheduleReconnection none st
      (st1, d, [])
  | .closed =>
      if !st.isReconnecting then
        let (st1, d) := scheduleReconnection none st
        (st1, d, [])
      else
        (st, none, [])

/-- `disconnectRealtime()` (lines 378-394): releases the channel handle
and resets `isReconnecting` and `reconnectAttempts` (the source comment
explicitly keeps `isDatabaseError`). -/
def disconnectRealtime (st : RtState) : RtState :=
  let st1 :=
    match st.realtimeSubscription with
    | some _ => { st with realtimeSubscription := none }
    | none => st
  { st1 with isReconnecting := false, reconnectAttempts := 0 }

/-- The environment's behaviour during one `initializeRealtime` call:
the result of the database connectivity probe (consulted only when
`isDatabaseError` is set), and what `.subscribe(...)` does — return a
channel handle, or throw synchronously (`none`). -/
structure InitEnv where
  dbTestOk : Bool
  subscribeOk : Option Nat
deriving Repr, DecidableEq

/-- `initializeRealtime()` (lines 186-286, second revision).  Note the
crucial interaction the retry loop depends on: if a channel handle
exists, the call first runs `disconnectRealtime()` (lines 190-193),
which resets `reconnectAttempts` to 0 (line 392).  Then it clears
`isReconnecting`, runs the database probe when `isDatabaseError` is set
(probe failure or throw → `scheduleReconnection()` and return null),
and finally subscribes: a returned channel becomes the new handle, a
synchronous throw lands in the catch, which calls
`scheduleReconnection()` behind the reentrancy guard.  Returns the new
state and the delay of any retry timer it armed. -/
def initializeRealtime (env : InitEnv) (st : RtState) : RtState × Option Nat :=
  let st1 :=
    match st.realtimeSubscription with
    | some _ => disconnectRealtime st
    | none => st
  let st2 := { st1 with isReconnecting := false }
  if st2.isDatabaseError && !env.dbTestOk then
    scheduleReconnection none st2
  else
    let st3 :=
      if st2.isDatabaseError then { st2 with isDatabaseError := false } else st2
    match env.subscribeOk with
    | some h => ({ st3 with realtimeSubscription := some h }, none)
    | none =>
        if !st3.isReconnecting then scheduleReconnection none st3
        else (st3, none)

/-- One atomic occurrence in the automatic retry loop: a status
callback firing on the current channel, or the armed retry timer firing
(the `setTimeout` body at lines 340-343, which runs
`initializeRealtime` under environment `env`). -/
inductive AutoEv where
  | status (e : SubStatus)
  | retryFires (env : InitEnv)
deriving Repr, DecidableEq

def AutoEv.isRetryFire : AutoEv → Bool
  | .retryFires _ => true
  | _ => false

/-- One step of the automatic machinery, returning the delay of any
retry timer scheduled by that step. -/
def autoStep (e : AutoEv) (st : RtState) : RtState × Option Nat :=
  match e with
  | .status s =>
      let r := subscribeStatusStep s st
      (r.1, r.2.1)
  | .retryFires env => initializeRealtime env st

/-- Runs a sequence of automatic events, collecting every scheduled
retry delay in order. -/
def runAuto : List AutoEv → RtState → RtState × List Nat
  | [], st => (st, [])
  | e :: rest, st =>
      let r := autoStep e st
      let r2 := runAuto rest r.1
      (r2.1, r.2.toList ++ r2.2)

/-- The no-channel-handle failure loop: each armed retry fires
`initializeRealtime` while the database probe keeps failing
(`env = ⟨false, none⟩`), the one path on which the attempt counter
actually accumulates across retries. -/
def runDbLoop : Nat → RtState → RtState × List Nat
  | 0, st => (st, [])
  | n + 1, st =>
      let r := initializeRealtime ⟨false, none⟩ st
      let r2 := runDbLoop n r.1
      (r2.1, r.2.toList ++ r2.2)

/-- The ordinary live-channel failure mode, as a concrete event
sequence: the channel errors, the armed retry fires and successfully
re-creates a channel that errors again, five full failed attempts in a
row, and then a sixth error — with no `SUBSCRIBED` status and no
processed event anywhere (no intervening success). -/
def liveLoopEvents : List AutoEv :=
  [AutoEv.status (SubStatus.channelError "boom"),
   AutoEv.retryFires ⟨true, some 1⟩,
   AutoEv.status (SubStatus.channelError "boom"),
   AutoEv.retryFires ⟨true, some 2⟩,
   AutoEv.status (SubStatus.channelError "boom"),
   AutoEv.retryFires ⟨true, some 3⟩,
   AutoEv.status (SubStatus.channelError "boom"),
   AutoEv.retryFires ⟨true, some 4⟩,
   AutoEv.status (SubStatus.channelError "boom"),
   AutoEv.retryFires ⟨true, some 5⟩,
   AutoEv.status (SubStatus.channelError "boom")]

/-- The module state at process start: `reconnectAttempts = 0`,
`isReconnecting = false`, `isDatabaseError = false`, one live channel. -/
def rtState0 : RtState := ⟨some 0, 0, false, false⟩

end Realtime

namespace Bot

/-- Reads exactly `n` decimal digits from the front of the character
list, accumulating their value; fails if a non-digit (or end of input)
is met.  Used to model the `\d{n}` groups of the scheduling regex. -/
def readDigits : Nat → Nat → List Char → Option (Nat × List Char)
  | 0, acc, l => some (acc, l)
  | n + 1, acc, c :: l =>
      if c.isDigit then readDigits n (acc * 10 + (c.toNat - 48)) l else none
  | _ + 1, _, [] => none

/-- Consumes one expected literal character. -/
def expectChar (c : Char) : List Char → Option (List Char)
  | d :: l => if d = c then some l else none
  | [] => none

/-- Models `\s+` : at least one whitespace character, consumed greedily. -/
def skipSpaces1 : List Char → Option (List Char)
  | c :: l =>
      if c.isWhitespace then some (l.dropWhile Char.isWhitespace) else none
  | [] => none

/-- JavaScript `s.trim()` : strips leading and trailing whitespace
(on the character list, so that concrete inputs evaluate by kernel
reduction). -/
def trimChars (l : List Char) : List Char :=
  ((l.dropWhile Char.isWhitespace).reverse.dropWhile Char.isWhitespace).reverse

/-- The anchored regex of `parseDateTime`
(`telegramBot.js` line 1328):
`^(\d{2})\.(\d{2})\.(\d{4})\s+(\d{2}):(\d{2})$`, returning the captured
(day, month, year, hours, minutes). -/
def matchDateTimePattern (s : String) :
    Option (Nat × Nat × Nat × Nat × Nat) := do
  let l := trimChars s.data
  let (day, l) ← readDigits 2 0 l
  let l ← expectChar '.' l
  let (month, l) ← readDigits 2 0 l
  let l ← expectChar '.' l
  let (year, l) ← readDigits 4 0 l
  let l ← skipSpaces1 l
  let (hours, l) ← readDigits 2 0 l
  let l ← expectChar ':' l
  let (minutes, l) ← readDigits 2 0 l
  if l = [] then pure (day, month, year, hours, minutes) else none

/-- Days since the Unix epoch of the civil date (y, m, d), m ∈ 1..12,
with out-of-range d rolling over linearly (exactly how the ECMAScript
`MakeDay` operation behaves).  Standard era-based civil-calendar
algorithm; `Int.tdiv` is the truncating division the formula is written
for. -/
def daysFromCivil (y m d : Int) : Int :=
  let y2 := if m ≤ 2 then y - 1 else y
  let era := Int.tdiv (if 0 ≤ y2 then y2 else y2 - 399) 400
  let yoe := y2 - era * 400
  let doy := Int.tdiv (153 * (if 2 < m then m - 3 else m + 9) + 2) 5 + d - 1
  let doe := yoe * 365 + Int.tdiv yoe 4 - Int.tdiv yoe 100 + doy
  era * 146097 + doe - 719468

/-- ECMAScript maps constructor years 0..99 to 1900..1999. -/
def jsYear (y : Int) : Int := if 0 ≤ y ∧ y ≤ 99 then y + 1900 else y

/-- Epoch milliseconds of `new Date(year, monthIndex, day, hours,
minutes)` (ECMAScript `MakeDay`/`MakeTime` semantics: the month index is
floor-normalized into the year, and an out-of-range day rolls over into
the following months — `new Date(2030, 1, 31)` is 3 March 2030, not an
invalid date).  The clock is modelled as a single uniform timeline (the
code builds and compares both sides of `date <= new Date()` in the same
local frame).  For in-range arguments like these the ECMAScript time
value never becomes NaN, so the model is total. -/
def jsDateMs (year monthIndex day hours minutes : Int) : Int :=
  let y := jsYear year + Int.fdiv monthIndex 12
  let mn := Int.emod monthIndex 12
  daysFromCivil y (mn + 1) day * 86400000 + hours * 3600000 + minutes * 60000

/-- `parseDateTime(dateTimeString)` (`telegramBot.js` lines 1325-1347,
second revision), with the current instant `now` passed explicitly.
Trims the input, matches the strict pattern, builds
`new Date(year, month - 1, day, hours, minutes)` and rejects it only
when it is not strictly in the future (`isNaN(date.getTime())` is
always false for four-digit years, see `jsDateMs`). -/
def parseDateTime (dateTimeString : String) (now : Int) : Option Int :=
  match matchDateTimePattern dateTimeString with
  | none => none
  | some (day, month, year, hours, minutes) =>
      let date := jsDateMs year ((month : Int) - 1) day hours minutes
      if date ≤ now then none else some date

/-- A fixed "current instant" used to evaluate the parser on concrete
inputs: 12 October 2026, 00:00. -/
def sampleNow : Int := jsDateMs 2026 9 12 0 0

/-- Association-list lookup, first binding wins (JavaScript `Map.get`). -/
def getAssoc {κ β : Type} [BEq κ] (k : κ) : List (κ × β) → Option β
  | [] => none
  | (k2, v) :: t => if k2 == k then some v else getAssoc k t

/-- Association-list insert-or-replace (JavaScript `Map.set`). -/
def setAssoc {κ β : Type} [BEq κ] (k : κ) (v : β) :
    List (κ × β) → List (κ × β)
  | [] => [(k, v)]
  | (k2, v2) :: t => if k2 == k then (k, v) :: t else (k2, v2) :: setAssoc k v t

/-- Association-list removal of the binding, if any (JavaScript
`Map.delete`). -/
def delAssoc {κ β : Type} [BEq κ] (k : κ) : List (κ × β) → List (κ × β)
  | [] => []
  | (k2, v2) :: t => if k2 == k then t else (k2, v2) :: delAssoc k t

/-- The `callback_requests` row (see `callbackService.js` and the
migrations), restricted to the fields the embedded handlers touch.
Timestamps are epoch milliseconds. -/
structure CallbackRecord where
  id : String
  name : String
  phone : String
  service_type : Option String := none
  status : String := "pending"
  assigned_to : Option String := none
  assigned_user_id : Option Int := none
  address : Option String := none
  detailed_service_type : Option String := none
  problem_description : Option String := none
  updated_at : Option Int := none
  completed_at : Option Int := none
  completed_by : Option String := none
deriving Repr, DecidableEq

/-- One of the partial-update object literals built in
`handleCallbackQuery` (lines 1207-1269); absent fields are `none`. -/
structure StatusUpdate where
  status : Option String := none
  updated_at : Option Int := none
  assigned_to : Option String := none
  assigned_user_id : Option Int := none
  completed_at : Option Int := none
  completed_by : Option String := none
deriving Repr, DecidableEq

/-- `Object.keys(statusUpdate).length > 0` is false (line 1272). -/
def StatusUpdate.isEmpty (u : StatusUpdate) : Bool :=
  u.status.isNone && u.updated_at.isNone && u.assigned_to.isNone &&
    u.assigned_user_id.isNone && u.completed_at.isNone && u.completed_by.isNone

/-- Merging the partial update into a row (what the Request Store's
`update` does to the matched row). -/
def StatusUpdate.apply (u : StatusUpdate) (r : CallbackRecord) : CallbackRecord :=
  { r with
    status := u.status.getD r.status
    updated_at := match u.updated_at with
      | some v => some v
      | none => r.updated_at
    assigned_to := match u.assigned_to with
      | some v => some v
      | none => r.assigned_to
    assigned_user_id := match u.assigned_user_id with
      | some v => some v
      | none => r.assigned_user_id
    completed_at := match u.completed_at with
      | some v => some v
      | none => r.completed_at
    completed_by := match u.completed_by with
      | some v => some v
      | none => r.completed_by }

/-- `getCallbackById(id)` of `callbackService.js`: the Request Store as a
row list. -/
def getCallbackById (store : List CallbackRecord) (id : String) :
    Option CallbackRecord :=
  store.find? (fun r => r.id == id)

/-- `updateCallbackStatus(id, statusUpdate)` of `callbackService.js`. -/
def updateCallbackStatus (store : List CallbackRecord) (id : String)
    (u : StatusUpdate) : List CallbackRecord :=
  store.map (fun r => if r.id == id then u.apply r else r)

/-- Tags naming the message texts the embedded handlers send.  The text
content is irrelevant to every claim, so each Russian template string of
the source is abstracted to one tag: `requestNotFound` is the
"Заявка не найдена" reply, `infoCollectionIntro` the info-collection
card (line 1103), `schedulingPrompt` the scheduling card (line 1150),
`reminderMessage` the fired reminder (line 1362), and the remaining tags
are the `responseText` strings of the `switch` in
`handleCallbackQuery`. -/
inductive MsgTag where
  | requestNotFound
  | infoCollectionIntro
  | schedulingPrompt
  | reminderMessage
  | contactedResponse
  | cancelResponse
  | scheduleResponse
  | schedulePendingResponse
  | completeResponse
  | unknownActionResponse
deriving Repr, DecidableEq

/-- An inline keyboard, reduced to the `callback_data` strings of its
buttons. -/
abbrev Keyboard := List (List String)

/-- Observable I/O events of the bot handlers, in execution order:
direct sends (`sendDirectMessage`), Request Store reads and writes,
`bot.answerCallbackQuery`, and `bot.editMessageText` on the group
message (successful or thrown-and-caught). -/
inductive Ev where
  | dmSend (chatId : Int) (tag : MsgTag)
  | storeRead (id : String)
  | storeUpdate (id : String) (u : StatusUpdate)
  | ackQuery (tag : MsgTag)
  | editGroupMsg (chatId messageId : Int) (tag : MsgTag)
  | editGroupMsgFailed (chatId messageId : Int)
deriving Repr, DecidableEq

def Ev.isAck : Ev → Bool
  | .ackQuery _ => true
  | _ => false

def Ev.isStoreUpdate : Ev → Bool
  | .storeUpdate _ _ => true
  | _ => false

def Ev.isGroupEditAttempt : Ev → Bool
  | .editGroupMsg _ _ _ => true
  | .editGroupMsgFailed _ _ => true
  | _ => false

/-- The cached identity of the group notification message for a record
(`groupMessages` map, line 1090). -/
structure MsgRef where
  messageId : Int
  chatId : Int
deriving Repr, DecidableEq

/-- A `scheduledJobs` entry (lines 1378-1384). -/
structure ReminderJob where
  timeoutId : Nat
  appointmentDate : Int
  clientName : String
  serviceType : Option String
  callbackId : String
deriving Repr, DecidableEq

/-- A pending `setTimeout` armed by `scheduleReminder`, identified by
its timeout id; `fireAt` is the instant the callback will run. -/
structure RTimer where
  timeoutId : Nat
  fireAt : Int
  userId : Int
  callbackId : String
  appointmentDate : Int
  clientName : String
  serviceType : Option String
deriving Repr, DecidableEq

/-- The `userStates` stages (`collecting_*` and `scheduling`). -/
inductive ConvAction where
  | collecting_address
  | collecting_service_type
  | collecting_problem
  | scheduling
deriving Repr, DecidableEq

structure CollectedInfo where
  address : Option String := none
  detailedServiceType : Option String := none
  problemDescription : Option String := none
deriving Repr, DecidableEq

/-- A `userStates` entry; the scheduling stage stores no collected info
or card message id, modelled by the `none` defaults. -/
structure UserState where
  action : ConvAction
  callbackId : String
  userName : String
  collectedInfo : CollectedInfo := {}
  infoMessageId : Option Int := none
deriving Repr, DecidableEq

/-- The combined mutable state the second-revision bot module closes
over: the Request Store rows plus the module-level maps
`groupMessages`, `userStates`, `scheduledJobs` (lines 1088-1090),
together with the set of pending timers and a fresh-timeout-id
counter. -/
structure BotState where
  store : List CallbackRecord
  groupMessages : List (String × MsgRef)
  userStates : List (Int × UserState)
  scheduledJobs : List (String × ReminderJob)
  timers : List RTimer
  nextTimeoutId : Nat
deriving Repr, DecidableEq

/-- The behaviour of the Telegram transport: the `message_id` returned
by a direct send (`none` when the send threw and was caught, returning
`null`), and whether `editMessageText` succeeds for a given chat and
message. -/
structure ChannelIO where
  dmMessageId : Int → Option Int
  editOk : Int → Int → Bool

/-- The `scheduledJobs` key, the template literal of line 1378. -/
def reminderKey (callbackId : String) (userId : Int) : String :=
  callbackId ++ "_" ++ toString userId

/-- `scheduleReminder(userId, callbackId, appointmentDate, clientName,
serviceType)` (lines 1350-1387): computes `reminderTime =
appointmentDate - 45*60*1000`; if that is not after `now`, logs and
returns the state unchanged; otherwise arms a fresh one-shot timeout
for `now + (reminderTime - now)` and stores the job under the key —
replacing the map entry but NOT clearing any previously armed timeout
(the source never calls `clearTimeout`). -/
def scheduleReminder (userId : Int) (callbackId : String)
    (appointmentDate : Int) (clientName : String)
    (serviceType : Option String) (now : Int) (st : BotState) : BotState :=
  let reminderTime := appointmentDate - 45 * 60 * 1000
  if reminderTime ≤ now then st
  else
    let timeoutMs := reminderTime - now
    let t : RTimer :=
      { timeoutId := st.nextTimeoutId, fireAt := now + timeoutMs,
        userId := userId, callbackId := callbackId,
        appointmentDate := appointmentDate, clientName := clientName,
        serviceType := serviceType }
    let job : ReminderJob :=
      { timeoutId := st.nextTimeoutId, appointmentDate := appointmentDate,
        clientName := clientName, serviceType := serviceType,
        callbackId := callbackId }
    { st with
      timers := t :: st.timers
      scheduledJobs := setAssoc (reminderKey callbackId userId) job st.scheduledJobs
      nextTimeoutId := st.nextTimeoutId + 1 }

/-- The body of the `setTimeout` callback of `scheduleReminder`
(lines 1361-1375): sends the reminder direct message and deletes the
job entry.  It does not read the Request Store at all.  Removing the
fired timer from `timers` is the timer-runtime fact that a one-shot
timeout is spent once it runs. -/
def fireReminder (t : RTimer) (st : BotState) : BotState × List Ev :=
  ({ st with
      timers := st.timers.filter (fun t2 => t2.timeoutId != t.timeoutId)
      scheduledJobs :=
        delAssoc (reminderKey t.callbackId t.userId) st.scheduledJobs },
   [Ev.dmSend t.userId MsgTag.reminderMessage])

/-- `startInfoCollection(userId, callbackId, userName)`
(lines 1093-1131): reads the record, replies "not found" if absent,
otherwise sends the info-collection card and stores the
`collecting_address` conversation state (with the sent card's message
id, or `null` if the send failed). -/
def startInfoCollection (io : ChannelIO) (userId : Int) (callbackId : String)
    (userName : String) (st : BotState) : BotState × List Ev :=
  match getCallbackById st.store callbackId with
  | none =>
      (st, [Ev.storeRead callbackId, Ev.dmSend userId MsgTag.requestNotFound])
  | some _ =>
      let us : UserState :=
        { action := ConvAction.collecting_address, callbackId := callbackId,
          userName := userName, collectedInfo := {},
          infoMessageId := io.dmMessageId userId }
      ({ st with userStates := setAssoc userId us st.userStates },
       [Ev.storeRead callbackId, Ev.dmSend userId MsgTag.infoCollectionIntro])

/-- `sendSchedulingRequest(userId, callbackId, userName)`
(lines 1134-1183): reads the record, replies "not found" if absent,
otherwise updates the record to `in_progress`, stores the `scheduling`
conversation state and sends the scheduling card. -/
def sendSchedulingRequest (io : ChannelIO) (now : Int) (userId : Int)
    (callbackId : String) (userName : String) (st : BotState) :
    BotState × List Ev :=
  match getCallbackById st.store callbackId with
  | none =>
      (st, [Ev.storeRead callbackId, Ev.dmSend userId MsgTag.requestNotFound])
  | some _ =>
      let u : StatusUpdate :=
        { status := some "in_progress", updated_at := some now }
      let us : UserState :=
        { action := ConvAction.scheduling, callbackId := callbackId,
          userName := userName }
      ({ st with
          store := updateCallbackStatus st.store callbackId u,
          userStates := setAssoc userId us st.userStates },
       [Ev.storeRead callbackId, Ev.storeUpdate callbackId u,
        Ev.dmSend userId MsgTag.schedulingPrompt])

/-- `updateGroupMessage(callbackId, statusText, newKeyboard)`
(lines 1291-1322): if no message identity is cached in the in-memory
`groupMessages` map, logs and returns (no Request Store fallback for
the identity, nothing is sent); otherwise re-reads the record to
regenerate the text and edits the cached message; if the edit throws,
the `catch` only logs — no fresh message is sent. -/
def updateGroupMessage (io : ChannelIO) (callbackId : String) (tag : MsgTag)
    (newKeyboard : Option Keyboard) (st : BotState) : BotState × List Ev :=
  match getAssoc callbackId st.groupMessages with
  | none => (st, [])
  | some md =>
      match getCallbackById st.store callbackId with
      | none => (st, [Ev.storeRead callbackId])
      | some _ =>
          if io.editOk md.chatId md.messageId then
            (st, [Ev.storeRead callbackId,
                  Ev.editGroupMsg md.chatId md.messageId tag])
          else
            (st, [Ev.storeRead callbackId,
                  Ev.editGroupMsgFailed md.chatId md.messageId])

/-- JavaScript `String.prototype.split(sep)` restricted to a
one-character separator, on the character list. -/
def splitCharsOn (sep : Char) : List Char → List (List Char)
  | [] => [[]]
  | c :: t =>
      let r := splitCharsOn sep t
      if c = sep then [] :: r
      else
        match r with
        | [] => [[c]]
        | h :: t2 => (c :: h) :: t2

/-- The callback-data parse of `handleCallbackQuery` (lines 1191-1198):
`schedule_pending_<id>` is special-cased (the prefix is stripped);
otherwise `data.split('_')` is destructured into the first two parts,
the second being absent (`undefined`) when there is no underscore. -/
def parseCallbackData (data : String) : String × Option String :=
  if "schedule_pending_".data.isPrefixOf data.data then
    ("schedule_pending", some (String.mk (data.data.drop 17)))
  else
    match splitCharsOn '_' data.data with
    | [] => ("", none)
    | [a] => (String.mk a, none)
    | a :: b :: _ => (String.mk a, some (String.mk b))

/-- The fields of the inbound `callbackQuery` object the handler
uses. -/
structure CallbackQuery where
  data : String
  fromFirstName : Option String
  fromId : Int
deriving Repr, DecidableEq

/-- The common tail of `handleCallbackQuery` after the `switch`
(lines 1271-1280): apply the status update if non-empty, acknowledge
the query with the response text, then update the group message. -/
def finishCallbackQuery (io : ChannelIO) (callbackId : String)
    (statusUpdate : StatusUpdate) (responseTag : MsgTag)
    (newKeyboard : Option Keyboard) (st : BotState) (evs : List Ev) :
    BotState × List Ev :=
  let p :=
    if statusUpdate.isEmpty then (st, ([] : List Ev))
    else
      ({ st with store := updateCallbackStatus st.store callbackId statusUpdate },
       [Ev.storeUpdate callbackId statusUpdate])
  let p2 := updateGroupMessage io callbackId responseTag newKeyboard p.1
  (p2.1, evs ++ p.2 ++ [Ev.ackQuery responseTag] ++ p2.2)

/-- `handleCallbackQuery(callbackQuery)` (lines 1186-1288, second
revision): parses the action, runs the `switch` (whose `contacted` and
`schedule`/`schedule_pending` cases perform their own I/O first), then
the common tail.  JavaScript's `undefined` record id (malformed data
with no underscore) is modelled as the empty id, which matches no row
and no cached message. -/
def handleCallbackQuery (io : ChannelIO) (now : Int) (q : CallbackQuery)
    (st : BotState) : BotState × List Ev :=
  let parsed := parseCallbackData q.data
  let action := parsed.1
  let callbackId := parsed.2.getD ""
  let userName := q.fromFirstName.getD "Работник"
  let userId := q.fromId
  if action = "contacted" then
    let u : StatusUpdate :=
      { status := some "contacted", updated_at := some now,
        assigned_to := some userName, assigned_user_id := some userId }
    let r := startInfoCollection io userId callbackId userName st
    finishCallbackQuery io callbackId u MsgTag.contactedResponse (some []) r.1 r.2
  else if action = "cancel" then
    let u : StatusUpdate := { status := some "cancelled", updated_at := some now }
    finishCallbackQuery io callbackId u MsgTag.cancelResponse (some []) st []
  else if action = "schedule" then
    let r := sendSchedulingRequest io now userId callbackId userName st
    finishCallbackQuery io callbackId {} MsgTag.scheduleResponse none r.1 r.2
  else if action = "schedule_pending" then
    let r := sendSchedulingRequest io now userId callbackId userName st
    finishCallbackQuery io callbackId {} MsgTag.schedulePendingResponse (some []) r.1 r.2
  else if action = "complete" then
    let u : StatusUpdate :=
      { status := some "completed", updated_at := some now,
        completed_at := some now, completed_by := some userName }
    finishCallbackQuery io callbackId u MsgTag.completeResponse (some []) st []
  else
    finishCallbackQuery io callbackId {} MsgTag.unknownActionResponse none st []

/-- Transport behaviour in which every send returns message id 500 and
every edit succeeds. -/
def ioOk : ChannelIO := ⟨fun _ => some 500, fun _ _ => true⟩

/-- Transport behaviour in which every `editMessageText` throws (the
original message was deleted). -/
def ioEditFails : ChannelIO := ⟨fun _ => some 500, fun _ _ => false⟩

/-- Concrete fixtures: record "r1", its operator 7, an armed reminder
for appointment time 1900000000000 ms (reminder fires 45 minutes
earlier, at 1899997300000 ms), and the cached group message 99 in
chat 55. -/
def recCancelled : CallbackRecord :=
  { id := "r1", name := "Alice", phone := "+100", status := "cancelled" }

def recInProgress : CallbackRecord :=
  { id := "r1", name := "Alice", phone := "+100", status := "in_progress" }

def jobR1 : ReminderJob := ⟨0, 1900000000000, "Alice", none, "r1"⟩

def timerR1 : RTimer := ⟨0, 1899997300000, 7, "r1", 1900000000000, "Alice", none⟩

def msgR1 : MsgRef := ⟨99, 55⟩

def stEmpty : BotState := ⟨[], [], [], [], [], 0⟩

def stCancelled : BotState :=
  ⟨[recCancelled], [("r1", msgR1)], [], [(reminderKey "r1" 7, jobR1)], [timerR1], 1⟩

def stInProgress : BotState :=
  ⟨[recInProgress], [("r1", msgR1)], [], [(reminderKey "r1" 7, jobR1)], [timerR1], 1⟩

/-- The record exists in the Request Store but no message identity is
cached in `groupMessages`. -/
def stNoCache : BotState := ⟨[recInProgress], [], [], [], [], 0⟩

/-- The state after arming a reminder for (record "r1", operator 7) at
time 0 and re-arming the same key at time 1000 with a later
appointment. -/
def stRearmed : BotState :=
  scheduleReminder 7 "r1" 1900300000000 "Alice" none 1000
    (scheduleReminder 7 "r1" 1900000000000 "Alice" none 0 stEmpty)

end Bot

namespace Realtime

/-- C4 counterexample: the ordinary live-channel failure mode.  Five
consecutive reconnect attempts are scheduled, fired and failed (each
`retryFires` re-creates a channel that immediately errors again), with
no `SUBSCRIBED` status and no processed event anywhere — yet after the
fifth failed attempt the next channel error schedules a SIXTH automatic
retry.  The reason is visible in the final counter: every automatic
retry runs `initializeRealtime`, whose cleanup of the live handle calls
`disconnectRealtime` and thereby resets `reconnectAttempts` to 0, so
the budget guard never binds. -/
theorem retry_continues_past_budget_cex :
    (runAuto liveLoopEvents rtState0).2 = [2000, 2000, 2000, 2000, 2000, 2000] ∧
    (liveLoopEvents.filter AutoEv.isRetryFire).length = 5 ∧
    (∀ e ∈ liveLoopEvents, e ≠ AutoEv.status SubStatus.subscribed) ∧
    (runAuto liveLoopEvents rtState0).1.reconnectAttempts = 1 :=
  ⟨by decide, by decide, by decide, by decide⟩

/-- C4 amended: the budget guard in `scheduleReconnection` refuses once
`reconnectAttempts` has reached 5, but the counter accumulates across
automatic retries only while no channel handle exists (the
database-probe / subscribe-throw loops): there a retry that fails again
schedules nothing once the budget is spent, and only a counter reset
re-enters the subscribing state.  With a live channel handle, however,
each automatic retry first disconnects the old channel, resetting the
counter to 0 — the clean resubscribe cycle always ends at counter 0 and
the next failure is scheduled again (after 2000 ms), so in the
live-channel failure loop the retry budget never binds and automatic
retries continue indefinitely.  The manual disconnect also resets the
counter. -/
theorem retry_budget_amended (st : RtState) (env : InitEnv) (d : Option Nat)
    (h5 : maxReconnectAttempts ≤ st.reconnectAttempts)
    (hr : st.isReconnecting = false) :
    (scheduleReconnection d st).2 = none ∧
    (scheduleReconnection d st).1.reconnectAttempts = st.reconnectAttempts ∧
    (st.realtimeSubscription = none → env.subscribeOk = none →
      (initializeRealtime env st).2 = none ∧
      (initializeRealtime env st).1.reconnectAttempts = st.reconnectAttempts) ∧
    (∀ h h2, st.realtimeSubscription = some h → env.subscribeOk = some h2 →
      (st.isDatabaseError = false ∨ env.dbTestOk = true) →
      (initializeRealtime env st).1.reconnectAttempts = 0 ∧
      (scheduleReconnection none (initializeRealtime env st).1).2 = some 2000) ∧
    (disconnectRealtime st).reconnectAttempts = 0 := by
  obtain ⟨a, b, c, dd⟩ := st
  obtain ⟨dt, so⟩ := env
  have hc : c = false := hr
  subst hc
  have hb : maxReconnectAttempts ≤ b := h5
  refine ⟨?_, ?_, ?_, ?_, ?_⟩
  · simp [scheduleReconnection, hb]
  · simp [scheduleReconnection, hb]
  · intro hsub hsubOk
    replace hsub : a = none := hsub
    replace hsubOk : so = none := hsubOk
    subst hsub
    subst hsubOk
    by_cases hdd : dd <;> by_cases hdt : dt <;>
      simp [initializeRealtime, scheduleReconnection, hb, hdd, hdt]
  · intro h h2 hsub hsubOk hcase
    replace hsub : a = some h := hsub
    replace hsubOk : so = some h2 := hsubOk
    subst hsub
    subst hsubOk
    rcases hcase with hc2 | hc2
    · replace hc2 : dd = false := hc2
      subst hc2
      norm_num [initializeRealtime, disconnectRealtime, scheduleReconnection,
        maxReconnectAttempts]
    · replace hc2 : dt = true := hc2
      subst hc2
      by_cases hdd : dd <;>
        norm_num [initializeRealtime, disconnectRealtime, scheduleReconnection,
          maxReconnectAttempts, hdd]
  · cases a <;> simp [disconnectRealtime]

theorem retry_budget_amended_witness :
    (scheduleReconnection none (⟨some 0, 5, false, false⟩ : RtState)).2 = none ∧
    (initializeRealtime ⟨true, none⟩ (⟨none, 5, false, false⟩ : RtState)).2 = none ∧
    (initializeRealtime ⟨true, some 1⟩
        (⟨some 0, 5, false, false⟩ : RtState)).1.reconnectAttempts = 0 ∧
    (scheduleReconnection none
        (initializeRealtime ⟨true, some 1⟩
          (⟨some 0, 5, false, false⟩ : RtState)).1).2 = some 2000 ∧
    (disconnectRealtime (⟨some 0, 5, false, false⟩ : RtState)).reconnectAttempts = 0 :=
  ⟨(retry_budget_amended ⟨some 0, 5, false, false⟩ ⟨true, some 1⟩ none
      (by decide) rfl).1,
   ((retry_budget_amended ⟨none, 5, false, false⟩ ⟨true, none⟩ none
      (by decide) rfl).2.2.1 rfl rfl).1,
   ((retry_budget_amended ⟨some 0, 5, false, false⟩ ⟨true, some 1⟩ none
      (by decide) rfl).2.2.2.1 0 1 rfl rfl (Or.inl rfl)).1,
   ((retry_budget_amended ⟨some 0, 5, false, false⟩ ⟨true, some 1⟩ none
      (by decide) rfl).2.2.2.1 0 1 rfl rfl (Or.inl rfl)).2,
   (retry_budget_amended ⟨some 0, 5, false, false⟩ ⟨true, some 1⟩ none
      (by decide) rfl).2.2.2.2⟩

/-- C5 counterexample: two consecutive recoverable failed reconnect
attempts from a fresh live channel, with no custom delay.  The second
consecutive attempt is scheduled after 2000 ms — not the
min(1000·2^2, 30000) = 4000 ms the claim requires — because the
automatic retry between them ran `initializeRealtime`, whose live-handle
cleanup reset the attempt counter to 0. -/
theorem backoff_not_per_sequence_cex :
    (runAuto [AutoEv.status (SubStatus.channelError "boom"),
              AutoEv.retryFires ⟨true, some 1⟩,
              AutoEv.status (SubStatus.channelError "boom")] rtState0).2
      = [2000, 2000] ∧
    min (1000 * 2 ^ 2) 30000 = 4000 :=
  ⟨by decide, by decide⟩

/-- C5 amended: the backoff formula is per call, not per sequence:
`scheduleReconnection` with no custom delay schedules
min(1000·2^(counter+1), 30000) ms, non-decreasing in the counter.  The
counter reaches n − 1 before the nth consecutive attempt only along the
no-channel-handle failure loop (here: the repeatedly failing database
probe), where six loop iterations from a fresh counter yield exactly
the delays 2000, 4000, 8000, 16000, 30000 and then stop (the sixth
iteration is refused by the budget guard).  In the live-channel loop
the counter is reset on every automatic retry, so each consecutive
attempt is scheduled at 2000 ms. -/
theorem backoff_per_call_formula (st : RtState)
    (hr : st.isReconnecting = false)
    (hb : st.reconnectAttempts < maxReconnectAttempts) :
    (scheduleReconnection none st).2
      = some (min (1000 * 2 ^ (st.reconnectAttempts + 1)) 30000) ∧
    min (1000 * 2 ^ (st.reconnectAttempts + 1)) 30000
      ≤ min (1000 * 2 ^ (st.reconnectAttempts + 2)) 30000 ∧
    (runDbLoop 6 ⟨none, 0, false, true⟩).2 = [2000, 4000, 8000, 16000, 30000] := by
  obtain ⟨a, b, c, dd⟩ := st
  have hc : c = false := hr
  subst hc
  have hb2 : ¬ (maxReconnectAttempts ≤ b) := by
    replace hb : b < maxReconnectAttempts := hb
    omega
  refine ⟨?_, ?_, by decide⟩
  · simp [scheduleReconnection, hb2]
  · exact min_le_min
      (Nat.mul_le_mul_left 1000
        (Nat.pow_le_pow_right (by norm_num) (by omega)))
      le_rfl

theorem backoff_per_call_formula_witness :
    (scheduleReconnection none rtState0).2
      = some (min (1000 * 2 ^ (rtState0.reconnectAttempts + 1)) 30000) ∧
    min (1000 * 2 ^ (rtState0.reconnectAttempts + 1)) 30000
      ≤ min (1000 * 2 ^ (rtState0.reconnectAttempts + 2)) 30000 ∧
    (runDbLoop 6 ⟨none, 0, false, true⟩).2 = [2000, 4000, 8000, 16000, 30000] :=
  backoff_per_call_formula rtState0 rfl (by decide)

/-- C6 counterexample: an error whose message text is exactly
"forbidden" is NOT classified as critical — it takes the generic
recoverable branch (exponential backoff of 2000 ms on a fresh state,
not a fixed critical delay), and no operator-channel notification is
emitted (the handler only logs to the console). -/
theorem forbidden_not_critical_cex :
    (handleRealtimeError "forbidden" rtState0).2.2 =
      [REv.consoleError "temporary realtime error - will retry"] ∧
    (handleRealtimeError "forbidden" rtState0).2.1 = some 2000 ∧
    ∀ t, REv.notifyOperator t ∉ (handleRealtimeError "forbidden" rtState0).2.2 := by
  have h : (handleRealtimeError "forbidden" rtState0).2.2 =
      [REv.consoleError "temporary realtime error - will retry"] := by decide
  refine ⟨h, by decide, ?_⟩
  intro t hm
  rw [h] at hm
  simp at hm

/-- C6 amended: an error whose message contains "permission" or
"unauthorized" (and is not the database-connection message) is retried
with a fixed 60-second delay; any other such message (including
"forbidden") falls into the generic branch with exponential backoff; in
neither case is any operator-channel notification emitted — the handler
only writes to the console. -/
theorem error_classification_amended (msg : String) (st : RtState)
    (hdb : strIncludes msg "unable to connect to the project database" = false)
    (hr : st.isReconnecting = false)
    (hb : st.reconnectAttempts < maxReconnectAttempts) :
    ((strIncludes msg "permission" || strIncludes msg "unauthorized") = true →
        (handleRealtimeError msg st).2.1 = some 60000) ∧
    ((strIncludes msg "permission" || strIncludes msg "unauthorized") = false →
        (handleRealtimeError msg st).2.1 =
          some (min (1000 * 2 ^ (st.reconnectAttempts + 1)) 30000)) ∧
    ∀ t, REv.notifyOperator t ∉ (handleRealtimeError msg st).2.2 := by
  have hb5 : ¬ (maxReconnectAttempts ≤ st.reconnectAttempts) := by omega
  refine ⟨fun hp => ?_, fun hp => ?_, ?_⟩
  · simp [handleRealtimeError, hdb, hp, hr, scheduleReconnection, hb5]
  · simp [handleRealtimeError, hdb, hp, hr, scheduleReconnection, hb5]
  · intro t hm
    simp only [handleRealtimeError, hdb] at hm
    by_cases hp : (strIncludes msg "permission" ||
        strIncludes msg "unauthorized") = true <;>
      simp [hp, hr, scheduleReconnection, hb5] at hm

theorem error_classification_amended_witness :
    (handleRealtimeError "permission denied" rtState0).2.1 = some 60000 ∧
    ∀ t, REv.notifyOperator t ∉ (handleRealtimeError "permission denied" rtState0).2.2 :=
  ⟨(error_classification_amended "permission denied" rtState0
      (by decide) rfl (by decide)).1 (by decide),
   (error_classification_amended "permission denied" rtState0
      (by decide) rfl (by decide)).2.2⟩

end Realtime

namespace Bot

/-- C7: the scheduling-input parser accepts the strict pattern and
rejects past instants, and "25.12.2030 14:30" is indeed built from
year 2030, month index 11, day 25, 14:30 — but the invalid calendar
date "31.02.2030 10:00" is NOT rejected: ECMAScript `new Date` rolls
it over to 3 March 2030, the `isNaN` validity check at line 1339 never
fires for it, and the parser returns the rolled-over future instant.
This contradicts both the claim and the code's own comment
("Check if date is valid"). -/
theorem parseDateTime_accepts_feb31 :
    matchDateTimePattern "25.12.2030 14:30" = some (25, 12, 2030, 14, 30) ∧
    parseDateTime "25.12.2030 14:30" sampleNow =
      some (jsDateMs 2030 11 25 14 30) ∧
    parseDateTime "31.02.2030 10:00" sampleNow =
      some (jsDateMs 2030 1 31 10 0) ∧
    jsDateMs 2030 1 31 10 0 = jsDateMs 2030 2 3 10 0 ∧
    parseDateTime "25.12.2020 14:30" sampleNow = none :=
  ⟨by decide, by decide, by decide, by decide, by decide⟩

theorem getAssoc_setAssoc {κ β : Type} [BEq κ] [LawfulBEq κ]
    (k : κ) (v : β) (l : List (κ × β)) :
    getAssoc k (setAssoc k v l) = some v := by
  induction l with
  | nil => simp [setAssoc, getAssoc]
  | cons p t ih =>
      obtain ⟨k2, v2⟩ := p
      by_cases h : (k2 == k) = true
      · simp [setAssoc, getAssoc, h]
      · simp [setAssoc, getAssoc, h, ih]

/-- C8: arming computes the fire time T − 45 minutes; if that is
strictly in the future, a one-shot timer firing exactly at T − 45
minutes is armed (prepended to the pending timers); if it is already in
the past, the state — including the reminder table — is unchanged. -/
theorem scheduleReminder_timing (userId : Int) (callbackId : String)
    (T : Int) (clientName : String) (serviceType : Option String)
    (now : Int) (st : BotState) :
    (now < T - 45 * 60 * 1000 →
      ∃ t : RTimer,
        (scheduleReminder userId callbackId T clientName serviceType now st).timers
          = t :: st.timers ∧
        t.fireAt = T - 45 * 60 * 1000) ∧
    (T - 45 * 60 * 1000 < now →
      scheduleReminder userId callbackId T clientName serviceType now st = st) := by
  constructor
  · intro h
    have hc : ¬ (T - 45 * 60 * 1000 ≤ now) := not_le.mpr h
    refine ⟨⟨st.nextTimeoutId, now + (T - 45 * 60 * 1000 - now), userId,
      callbackId, T, clientName, serviceType⟩, ?_, ?_⟩
    · simp only [scheduleReminder]
      rw [if_neg hc]
    · show now + (T - 45 * 60 * 1000 - now) = T - 45 * 60 * 1000
      ring
  · intro h
    simp only [scheduleReminder]
    rw [if_pos (le_of_lt h)]

theorem scheduleReminder_timing_witness :
    (∃ t : RTimer,
        (scheduleReminder 7 "r1" 1900000000000 "Alice" none 0 stEmpty).timers
          = t :: stEmpty.timers ∧
        t.fireAt = 1900000000000 - 45 * 60 * 1000) ∧
    scheduleReminder 7 "r1" 0 "Alice" none 1 stEmpty = stEmpty :=
  ⟨(scheduleReminder_timing 7 "r1" 1900000000000 "Alice" none 0 stEmpty).1
      (by decide),
   (scheduleReminder_timing 7 "r1" 0 "Alice" none 1 stEmpty).2 (by decide)⟩

/-- C1 counterexample: record "r1" is `cancelled` in the Request Store
at fire time and its reminder is armed, yet the fire callback still
sends the reminder message to operator 7 — the record's status is never
re-read at fire time, so the reminder is not suppressed. -/
theorem fireReminder_ignores_cancelled_status :
    (getCallbackById stCancelled.store "r1").map CallbackRecord.status
      = some "cancelled" ∧
    getAssoc (reminderKey "r1" 7) stCancelled.scheduledJobs = some jobR1 ∧
    (fireReminder timerR1 stCancelled).2 = [Ev.dmSend 7 MsgTag.reminderMessage] :=
  ⟨by decide, by decide, by decide⟩

/-- C1 amended: when the reminder timer fires, the reminder message is
sent to the operator unconditionally — the fire callback performs no
Request Store read, its emitted events are independent of the store
contents — and the job entry for the (recordId, operatorId) key is
removed. -/
theorem fireReminder_sends_unconditionally (t : RTimer) (st : BotState) :
    (fireReminder t st).2 = [Ev.dmSend t.userId MsgTag.reminderMessage] ∧
    (∀ id, Ev.storeRead id ∉ (fireReminder t st).2) ∧
    (∀ store2, (fireReminder t { st with store := store2 }).2
        = (fireReminder t st).2) ∧
    (fireReminder t st).1.scheduledJobs
      = delAssoc (reminderKey t.callbackId t.userId) st.scheduledJobs := by
  refine ⟨rfl, ?_, fun store2 => rfl, rfl⟩
  intro id h
  simp [fireReminder] at h

theorem fireReminder_sends_unconditionally_witness :
    (fireReminder timerR1 stInProgress).2
      = [Ev.dmSend timerR1.userId MsgTag.reminderMessage] ∧
    (∀ id, Ev.storeRead id ∉ (fireReminder timerR1 stInProgress).2) ∧
    (∀ store2, (fireReminder timerR1 { stInProgress with store := store2 }).2
        = (fireReminder timerR1 stInProgress).2) ∧
    (fireReminder timerR1 stInProgress).1.scheduledJobs
      = delAssoc (reminderKey timerR1.callbackId timerR1.userId)
          stInProgress.scheduledJobs :=
  fireReminder_sends_unconditionally timerR1 stInProgress

/-- C9 counterexample: after arming (record "r1", operator 7) and then
re-arming the same key, the job table holds only the new job (timeout
id 1), but the first timeout (id 0, firing at the original T − 45 min)
was never cleared: it is still pending, and when it runs it still sends
the reminder — and its cleanup deletes the key, dropping the new job
too. -/
theorem rearm_does_not_cancel_old_timer :
    getAssoc (reminderKey "r1" 7) stRearmed.scheduledJobs
      = some ⟨1, 1900300000000, "Alice", none, "r1"⟩ ∧
    timerR1 ∈ stRearmed.timers ∧
    (fireReminder timerR1 stRearmed).2 = [Ev.dmSend 7 MsgTag.reminderMessage] ∧
    (fireReminder timerR1 stRearmed).1.scheduledJobs = [] :=
  ⟨by decide, by decide, by decide, by decide⟩

/-- C9 amended: arming a reminder for a key replaces the job-table
entry for that key (the table afterwards maps the key to the new job),
but the previously armed timeout is NOT cancelled: every timer pending
before the re-arm is still pending after it, so the earlier reminder
can still fire. -/
theorem rearm_replaces_entry_keeps_timers (userId : Int) (callbackId : String)
    (T : Int) (clientName : String) (serviceType : Option String)
    (now : Int) (st : BotState)
    (h : now < T - 45 * 60 * 1000) :
    getAssoc (reminderKey callbackId userId)
        (scheduleReminder userId callbackId T clientName serviceType now st).scheduledJobs
      = some ⟨st.nextTimeoutId, T, clientName, serviceType, callbackId⟩ ∧
    ∀ t ∈ st.timers,
      t ∈ (scheduleReminder userId callbackId T clientName serviceType now st).timers := by
  have hc : ¬ (T - 45 * 60 * 1000 ≤ now) := not_le.mpr h
  constructor
  · simp only [scheduleReminder]
    rw [if_neg hc]
    exact getAssoc_setAssoc _ _ _
  · intro t ht
    simp only [scheduleReminder]
    rw [if_neg hc]
    exact List.mem_cons_of_mem _ ht

theorem rearm_replaces_entry_keeps_timers_witness :
    getAssoc (reminderKey "r1" 7)
        (scheduleReminder 7 "r1" 1900300000000 "Alice" none 1000 stInProgress).scheduledJobs
      = some ⟨1, 1900300000000, "Alice", none, "r1"⟩ ∧
    ∀ t ∈ stInProgress.timers,
      t ∈ (scheduleReminder 7 "r1" 1900300000000 "Alice" none 1000 stInProgress).timers :=
  rearm_replaces_entry_keeps_timers 7 "r1" 1900300000000 "Alice" none 1000
    stInProgress (by decide)

theorem updateGroupMessage_state (io : ChannelIO) (cid : String)
    (tag : MsgTag) (kb : Option Keyboard) (st : BotState) :
    (updateGroupMessage io cid tag kb st).1 = st := by
  rcases h1 : getAssoc cid st.groupMessages with _ | md
  · simp [updateGroupMessage, h1]
  · rcases h2 : getCallbackById st.store cid with _ | r
    · simp [updateGroupMessage, h1, h2]
    · by_cases h3 : io.editOk md.chatId md.messageId <;>
        simp [updateGroupMessage, h1, h2, h3]

/-- C3 counterexample: record "r1" exists in the Request Store, but its
message identity is not cached in memory — `updateGroupMessage` returns
immediately with no event at all (no Request Store fallback is
attempted, nothing is sent: the status update is silently dropped); and
when the identity is cached but the in-place edit fails, only the
failed edit attempt is recorded — no fresh message is sent. -/
theorem updateGroupMessage_drops_when_uncached :
    getCallbackById stNoCache.store "r1" = some recInProgress ∧
    updateGroupMessage ioOk "r1" MsgTag.cancelResponse (some []) stNoCache
      = (stNoCache, []) ∧
    (updateGroupMessage ioEditFails "r1" MsgTag.cancelResponse (some []) stInProgress).2
      = [Ev.storeRead "r1", Ev.editGroupMsgFailed 55 99] :=
  ⟨by decide, by decide, by decide⟩

/-- C3 amended: if the message identity is not cached in the in-memory
map, the notification update is skipped entirely (no Request Store
fallback, nothing sent); if the cached edit fails, the failure is only
logged and no fresh message is sent; in every case the function returns
with the state unchanged (the failure never escapes into the mutation
path). -/
theorem updateGroupMessage_no_fallback (io : ChannelIO) (cid : String)
    (tag : MsgTag) (kb : Option Keyboard) (st : BotState) :
    (getAssoc cid st.groupMessages = none →
        updateGroupMessage io cid tag kb st = (st, [])) ∧
    (∀ md : MsgRef, getAssoc cid st.groupMessages = some md →
        getCallbackById st.store cid ≠ none →
        io.editOk md.chatId md.messageId = false →
        (updateGroupMessage io cid tag kb st).2
          = [Ev.storeRead cid, Ev.editGroupMsgFailed md.chatId md.messageId]) ∧
    (updateGroupMessage io cid tag kb st).1 = st := by
  refine ⟨fun h => ?_, fun md h1 h2 h3 => ?_, updateGroupMessage_state io cid tag kb st⟩
  · simp [updateGroupMessage, h]
  · rcases hr : getCallbackById st.store cid with _ | r
    · exact absurd hr h2
    · simp [updateGroupMessage, h1, hr, h3]

theorem updateGroupMessage_no_fallback_witness :
    updateGroupMessage ioOk "r1" MsgTag.completeResponse none stNoCache
      = (stNoCache, []) ∧
    (updateGroupMessage ioEditFails "r1" MsgTag.completeResponse none stInProgress).2
      = [Ev.storeRead "r1", Ev.editGroupMsgFailed 55 99] :=
  ⟨(updateGroupMessage_no_fallback ioOk "r1" MsgTag.completeResponse none
      stNoCache).1 (by decide),
   (updateGroupMessage_no_fallback ioEditFails "r1" MsgTag.completeResponse none
      stInProgress).2.1 msgR1 (by decide) (by decide) (by decide)⟩

theorem startInfoCollection_jobs (io : ChannelIO) (userId : Int)
    (cid userName : String) (st : BotState) :
    (startInfoCollection io userId cid userName st).1.scheduledJobs
      = st.scheduledJobs := by
  rcases h : getCallbackById st.store cid with _ | r <;>
    simp [startInfoCollection, h]

theorem startInfoCollection_timers (io : ChannelIO) (userId : Int)
    (cid userName : String) (st : BotState) :
    (startInfoCollection io userId cid userName st).1.timers = st.timers := by
  rcases h : getCallbackById st.store cid with _ | r <;>
    simp [startInfoCollection, h]

theorem sendSchedulingRequest_jobs (io : ChannelIO) (now : Int) (userId : Int)
    (cid userName : String) (st : BotState) :
    (sendSchedulingRequest io now userId cid userName st).1.scheduledJobs
      = st.scheduledJobs := by
  rcases h : getCallbackById st.store cid with _ | r <;>
    simp [sendSchedulingRequest, h]

theorem sendSchedulingRequest_timers (io : ChannelIO) (now : Int) (userId : Int)
    (cid userName : String) (st : BotState) :
    (sendSchedulingRequest io now userId cid userName st).1.timers
      = st.timers := by
  rcases h : getCallbackById st.store cid with _ | r <;>
    simp [sendSchedulingRequest, h]

theorem finishCallbackQuery_jobs (io : ChannelIO) (cid : String)
    (u : StatusUpdate) (tag : MsgTag) (kb : Option Keyboard)
    (st : BotState) (evs : List Ev) :
    (finishCallbackQuery io cid u tag kb st evs).1.scheduledJobs
      = st.scheduledJobs := by
  unfold finishCallbackQuery
  dsimp only
  rw [updateGroupMessage_state]
  by_cases hu : u.isEmpty <;> simp [hu]

theorem finishCallbackQuery_timers (io : ChannelIO) (cid : String)
    (u : StatusUpdate) (tag : MsgTag) (kb : Option Keyboard)
    (st : BotState) (evs : List Ev) :
    (finishCallbackQuery io cid u tag kb st evs).1.timers = st.timers := by
  unfold finishCallbackQuery
  dsimp only
  rw [updateGroupMessage_state]
  by_cases hu : u.isEmpty <;> simp [hu]

theorem startInfoCollection_trace (io : ChannelIO) (userId : Int)
    (cid userName : String) (st : BotState) :
    ∀ e ∈ (startInfoCollection io userId cid userName st).2,
      e.isAck = false ∧ e.isGroupEditAttempt = false := by
  rcases h : getCallbackById st.store cid with _ | r <;>
    · intro e he
      simp [startInfoCollection, h] at he
      rcases he with he | he <;> subst he <;> exact ⟨rfl, rfl⟩

theorem sendSchedulingRequest_trace (io : ChannelIO) (now : Int)
    (userId : Int) (cid userName : String) (st : BotState) :
    ∀ e ∈ (sendSchedulingRequest io now userId cid userName st).2,
      e.isAck = false ∧ e.isGroupEditAttempt = false := by
  rcases h : getCallbackById st.store cid with _ | r
  · intro e he
    simp [sendSchedulingRequest, h] at he
    rcases he with he | he <;> subst he <;> exact ⟨rfl, rfl⟩
  · intro e he
    simp [sendSchedulingRequest, h] at he
    rcases he with he | he | he <;> subst he <;> exact ⟨rfl, rfl⟩

theorem updateGroupMessage_trace (io : ChannelIO) (cid : String)
    (tag : MsgTag) (kb : Option Keyboard) (st : BotState) :
    ∀ e ∈ (updateGroupMessage io cid tag kb st).2,
      e.isAck = false ∧ e.isStoreUpdate = false := by
  rcases h1 : getAssoc cid st.groupMessages with _ | md
  · intro e he
    simp [updateGroupMessage, h1] at he
  · rcases h2 : getCallbackById st.store cid with _ | r
    · intro e he
      simp [updateGroupMessage, h1, h2] at he
      subst he
      exact ⟨rfl, rfl⟩
    · by_cases h3 : io.editOk md.chatId md.messageId <;>
        · intro e he
          simp [updateGroupMessage, h1, h2, h3] at he
          rcases he with he | he <;> subst he <;> exact ⟨rfl, rfl⟩

theorem finishCallbackQuery_trace (io : ChannelIO) (cid : String)
    (u : StatusUpdate) (tag : MsgTag) (kb : Option Keyboard)
    (st : BotState) (evs : List Ev)
    (h1 : ∀ e ∈ evs, e.isAck = false ∧ e.isGroupEditAttempt = false) :
    ∃ pre post,
      (finishCallbackQuery io cid u tag kb st evs).2
        = pre ++ Ev.ackQuery tag :: post ∧
      (∀ e ∈ pre, e.isAck = false) ∧
      (∀ e ∈ pre, e.isGroupEditAttempt = false) ∧
      (∀ e ∈ post, e.isAck = false) ∧
      (∀ e ∈ post, e.isStoreUpdate = false) := by
  unfold finishCallbackQuery
  dsimp only
  by_cases hu : u.isEmpty
  · refine ⟨evs, (updateGroupMessage io cid tag kb st).2, ?_, ?_, ?_, ?_, ?_⟩
    · simp [hu]
    · exact fun e he => (h1 e he).1
    · exact fun e he => (h1 e he).2
    · exact fun e he => (updateGroupMessage_trace io cid tag kb st e he).1
    · exact fun e he => (updateGroupMessage_trace io cid tag kb st e he).2
  · refine ⟨evs ++ [Ev.storeUpdate cid u],
      (updateGroupMessage io cid tag kb
        { st with store := updateCallbackStatus st.store cid u }).2,
      ?_, ?_, ?_, ?_, ?_⟩
    · simp [hu]
    · intro e he
      rcases List.mem_append.mp he with he | he
      · exact (h1 e he).1
      · simp at he
        subst he
        rfl
    · intro e he
      rcases List.mem_append.mp he with he | he
      · exact (h1 e he).2
      · simp at he
        subst he
        rfl
    · exact fun e he => (updateGroupMessage_trace io cid tag kb _ e he).1
    · exact fun e he => (updateGroupMessage_trace io cid tag kb _ e he).2

/-- C2 counterexample: for the `cancel` action on a record whose group
message is cached, the handler's event trace begins with the Request
Store mutation and only then acknowledges the interaction — the
acknowledgement does not precede the mutation (it precedes only the
notification-message update). -/
theorem ack_does_not_precede_mutation :
    (handleCallbackQuery ioOk 1000 ⟨"cancel_r1", some "Oleg", 7⟩ stInProgress).2
      = [Ev.storeUpdate "r1" ⟨some "cancelled", some 1000, none, none, none, none⟩,
         Ev.ackQuery MsgTag.cancelResponse,
         Ev.storeRead "r1",
         Ev.editGroupMsg 55 99 MsgTag.cancelResponse] := by decide

/-- C2 amended: for every inbound action event the handler emits
exactly one acknowledgement; every Request Store mutation (and any
direct-message side effect of the `switch`) occurs before it, and every
notification-message edit attempt occurs after it.  That is, the
acknowledgement separates the mutation phase from the
notification-update phase; it does not precede the mutation. -/
theorem ack_follows_mutation_precedes_edit (io : ChannelIO) (now : Int)
    (q : CallbackQuery) (st : BotState) :
    ∃ pre tag post,
      (handleCallbackQuery io now q st).2 = pre ++ Ev.ackQuery tag :: post ∧
      (∀ e ∈ pre, e.isAck = false) ∧
      (∀ e ∈ pre, e.isGroupEditAttempt = false) ∧
      (∀ e ∈ post, e.isAck = false) ∧
      (∀ e ∈ post, e.isStoreUpdate = false) := by
  have hnil : ∀ e ∈ ([] : List Ev), e.isAck = false ∧ e.isGroupEditAttempt = false := by
    intro e he
    exact absurd he (List.not_mem_nil e)
  unfold handleCallbackQuery
  dsimp only
  split_ifs
  · obtain ⟨pre, post, h⟩ :=
      finishCallbackQuery_trace io _ _ MsgTag.contactedResponse (some []) _ _
        (startInfoCollection_trace io _ _ _ st)
    exact ⟨pre, _, post, h.1, h.2.1, h.2.2.1, h.2.2.2.1, h.2.2.2.2⟩
  · obtain ⟨pre, post, h⟩ :=
      finishCallbackQuery_trace io _ _ MsgTag.cancelResponse (some []) st [] hnil
    exact ⟨pre, _, post, h.1, h.2.1, h.2.2.1, h.2.2.2.1, h.2.2.2.2⟩
  · obtain ⟨pre, post, h⟩ :=
      finishCallbackQuery_trace io _ _ MsgTag.scheduleResponse none _ _
        (sendSchedulingRequest_trace io now _ _ _ st)
    exact ⟨pre, _, post, h.1, h.2.1, h.2.2.1, h.2.2.2.1, h.2.2.2.2⟩
  · obtain ⟨pre, post, h⟩ :=
      finishCallbackQuery_trace io _ _ MsgTag.schedulePendingResponse (some []) _ _
        (sendSchedulingRequest_trace io now _ _ _ st)
    exact ⟨pre, _, post, h.1, h.2.1, h.2.2.1, h.2.2.2.1, h.2.2.2.2⟩
  · obtain ⟨pre, post, h⟩ :=
      finishCallbackQuery_trace io _ _ MsgTag.completeResponse (some []) st [] hnil
    exact ⟨pre, _, post, h.1, h.2.1, h.2.2.1, h.2.2.2.1, h.2.2.2.2⟩
  · obtain ⟨pre, post, h⟩ :=
      finishCallbackQuery_trace io _ _ MsgTag.unknownActionResponse none st [] hnil
    exact ⟨pre, _, post, h.1, h.2.1, h.2.2.1, h.2.2.2.1, h.2.2.2.2⟩

theorem ack_follows_mutation_precedes_edit_witness :
    ∃ pre tag post,
      (handleCallbackQuery ioOk 1000 ⟨"cancel_r1", some "Oleg", 7⟩ stInProgress).2
        = pre ++ Ev.ackQuery tag :: post ∧
      (∀ e ∈ pre, e.isAck = false) ∧
      (∀ e ∈ pre, e.isGroupEditAttempt = false) ∧
      (∀ e ∈ post, e.isAck = false) ∧
      (∀ e ∈ post, e.isStoreUpdate = false) :=
  ack_follows_mutation_precedes_edit ioOk 1000 ⟨"cancel_r1", some "Oleg", 7⟩
    stInProgress

/-- C10 counterexample: record "r1" has an armed reminder for operator
7; processing the `cancel` (or `complete`) action updates the record's
status but leaves both the reminder job and its pending timer exactly
in place, and the timer still sends the reminder when it fires. -/
theorem cancel_action_leaves_reminder_armed :
    (handleCallbackQuery ioOk 1000 ⟨"cancel_r1", some "Oleg", 7⟩ stInProgress).1.scheduledJobs
      = stInProgress.scheduledJobs ∧
    (handleCallbackQuery ioOk 1000 ⟨"cancel_r1", some "Oleg", 7⟩ stInProgress).1.timers
      = stInProgress.timers ∧
    (handleCallbackQuery ioOk 1000 ⟨"complete_r1", some "Oleg", 7⟩ stInProgress).1.scheduledJobs
      = stInProgress.scheduledJobs ∧
    getAssoc (reminderKey "r1" 7) stInProgress.scheduledJobs = some jobR1 ∧
    (getCallbackById
        (handleCallbackQuery ioOk 1000 ⟨"cancel_r1", some "Oleg", 7⟩ stInProgress).1.store
        "r1").map CallbackRecord.status = some "cancelled" ∧
    (fireReminder timerR1
        (handleCallbackQuery ioOk 1000 ⟨"cancel_r1", some "Oleg", 7⟩ stInProgress).1).2
      = [Ev.dmSend 7 MsgTag.reminderMessage] :=
  ⟨by decide, by decide, by decide, by decide, by decide, by decide⟩

/-- C10 amended: no branch of the callback handler — in particular
neither `cancel` nor `complete` — cancels or removes an armed reminder:
the reminder table and the pending timers are preserved verbatim by
every action, so a previously armed reminder still fires afterwards. -/
theorem handleCallbackQuery_preserves_reminders (io : ChannelIO) (now : Int)
    (q : CallbackQuery) (st : BotState) :
    (handleCallbackQuery io now q st).1.scheduledJobs = st.scheduledJobs ∧
    (handleCallbackQuery io now q st).1.timers = st.timers := by
  unfold handleCallbackQuery
  dsimp only
  split_ifs <;>
    constructor <;>
      simp only [finishCallbackQuery_jobs, finishCallbackQuery_timers,
        startInfoCollection_jobs, startInfoCollection_timers,
        sendSchedulingRequest_jobs, sendSchedulingRequest_timers]

theorem handleCallbackQuery_preserves_reminders_witness :
    (handleCallbackQuery ioOk 1000 ⟨"complete_r1", some "Oleg", 7⟩ stInProgress).1.scheduledJobs
      = stInProgress.scheduledJobs ∧
    (handleCallbackQuery ioOk 1000 ⟨"complete_r1", some "Oleg", 7⟩ stInProgress).1.timers
      = stInProgress.timers :=
  handleCallbackQuery_preserves_reminders ioOk 1000 ⟨"complete_r1", some "Oleg", 7⟩
    stInProgress

end Bot

end TruePros
